import Mathlib

/-!
Verification of the dual-mode event renderer (`RLMLogger`) of
`pydantic_ai_rlm/logging.py`.

Shallow embedding conventions:
* Python strings are `List Char` (`Str`), indexing/slicing by characters,
  exactly as Python slices `s[:n]` operate on characters.
* A Python value living in a `locals` dict is modelled by `PyValue`:
  its dynamic type name plus the outcome of `repr(value)` — `some s`
  when `repr` returns the string `s`, `none` when `repr` raises.
* A Python dict (insertion-ordered) is an association list.
* Terminal output is modelled as data: the plain-mode path yields the
  list of strings passed to `print` (in order); the enhanced ("rich")
  path yields `OutEvt` values recording the panels, their textual
  content parts (styling dropped) and the variable-table rows.
* The module-global `_logger` singleton is explicit state
  (`Option RLMLogger`) threaded through `get_logger` / `configure_logging`.
* `result.execution_time` is a rational number; the f-string `:.3f`
  format is embedded as rounding to 3 decimal places (`format3`).
-/

/-- Python strings, seen as their character sequences. -/
abbrev Str := List Char

namespace RLM

/-- The whitespace characters removed by Python `str.strip()`
(ASCII space, tab, newline, carriage return, vertical tab, form feed). -/
def isPySpace (c : Char) : Bool :=
  c == ' ' || c == '\t' || c == '\n' || c == '\r' || c == '\x0b' || c == '\x0c'

/-- Python `s.strip()`: drop leading and trailing whitespace. -/
def stripPy (s : Str) : Str :=
  ((s.dropWhile isPySpace).reverse.dropWhile isPySpace).reverse

/-- Python `k.startswith("_")`. -/
def startsWithUnd : Str → Bool
  | '_' :: _ => true
  | _ => false

/-- A dynamically-typed Python value as the renderer observes it:
the name of its type and the result of `repr` (`none` when `repr` raises). -/
structure PyValue where
  typeName : Str
  reprResult : Option Str
  deriving DecidableEq, Repr

/-- `result.locals`: an insertion-ordered mapping from names to values. -/
abbrev LocalsMap := List (Str × PyValue)

/-- The `REPLResult` consumed by the logger (called `ExecutionResult` in the spec):
`success`, `execution_time` (seconds), `stdout`, `stderr`, `locals`. -/
structure REPLResult where
  success : Bool
  execution_time : ℚ
  stdout : Str
  stderr : Str
  locals : LocalsMap

/-- Spec name for the same record. -/
abbrev ExecutionResult := REPLResult

/-- Decimal digits of a natural number. -/
def natToStr (n : Nat) : Str := Nat.toDigits 10 n

/-- Embedding of the f-string format `:.3f` for a nonnegative time value:
round to 3 decimal places and print with exactly three fractional digits.
(Python formats the underlying float with round-half-even; no claim in
scope exercises a tie, so plain rounding is used.) -/
def format3 (q : ℚ) : Str :=
  let n : ℕ := (⌊q * 1000 + 1/2⌋).toNat
  let frac := n % 1000
  let fracDigits := natToStr frac
  natToStr (n / 1000) ++ ['.'] ++ (List.replicate (3 - fracDigits.length) '0' ++ fracDigits)

/-- The 50-character `=` banner of the plain mode. -/
def banner50 : Str := List.replicate 50 '='

/-- The logger instance. Only the `enabled` flag is semantically relevant:
`self.console` is live iff the rich capability is available, a module-level
constant modelled as the `richAvailable` parameter of the render functions. -/
structure RLMLogger where
  enabled : Bool
  deriving DecidableEq, Repr

/-- One terminal output event. Plain mode emits `printed` events (one per
`print` call); rich mode emits `panel` events (title plus textual content
parts, styling markup dropped) and `table` events (Name/Type/Value rows). -/
inductive OutEvt where
  | printed (s : Str)
  | panel (title : Str) (content : List Str)
  | table (rows : List (Str × Str × Str))
  deriving DecidableEq, Repr

/-- `log_code_execution` (logging.py lines 35-54). -/
def log_code_execution (richAvailable : Bool) (self : RLMLogger) (code : Str) :
    List OutEvt × RLMLogger :=
  if !self.enabled then ([], self)
  else if richAvailable then
    ([.panel "Code Execution".toList [code]], self)
  else
    ([.printed ('\n' :: banner50), .printed "CODE EXECUTION".toList,
      .printed banner50, .printed code, .printed banner50], self)

/-- `_get_status_style` (lines 74-78): status text and border style. -/
def get_status_style (success : Bool) : Str × Str :=
  if success then ("SUCCESS".toList, "green".toList)
  else ("ERROR".toList, "red".toList)

/-- `_build_content_parts` (lines 80-96): the textual parts of the rich
result panel, in order. -/
def build_content_parts (result : REPLResult) : List Str :=
  let parts := [("Executed in ".toList ++ format3 result.execution_time ++ "s".toList)]
  let parts := parts ++
    (if stripPy result.stdout ≠ [] then
      let stdout := stripPy result.stdout
      let stdout :=
        if stdout.length > 2000 then stdout.take 2000 ++ "\n... (truncated)".toList
        else stdout
      ["\n".toList, "Output:".toList, "\n".toList, stdout]
    else [])
  let parts := parts ++
    (if stripPy result.stderr ≠ [] then
      let stderr := stripPy result.stderr
      let stderr :=
        if stderr.length > 1000 then stderr.take 1000 ++ "\n... (truncated)".toList
        else stderr
      ["\n".toList, "Errors:".toList, "\n".toList, stderr]
    else [])
  parts

/-- The exclusion tuple of `_get_user_vars` (line 100). -/
def excludedRich : List Str :=
  ["context".toList, "json".toList, "re".toList, "os".toList,
   "collections".toList, "math".toList]

/-- The exclusion tuple inlined in `_log_result_plain` (line 162). -/
def excludedPlain : List Str :=
  ["context".toList, "json".toList, "re".toList, "os".toList]

/-- `_get_user_vars` (lines 98-101). -/
def get_user_vars (locals_dict : LocalsMap) : LocalsMap :=
  locals_dict.filter (fun kv => !(startsWithUnd kv.1) && !(excludedRich.contains kv.1))

/-- The user-variable filter inlined in `_log_result_plain` (line 162),
with its narrower exclusion tuple. -/
def user_vars_plain (locals_dict : LocalsMap) : LocalsMap :=
  locals_dict.filter (fun kv => !(startsWithUnd kv.1) && !(excludedPlain.contains kv.1))

/-- `_format_var_value` (lines 131-139): `repr` guarded by try/except. -/
def format_var_value (value : PyValue) : Str :=
  match value.reprResult with
  | some value_str =>
      if value_str.length > 60 then value_str.take 57 ++ "...".toList
      else value_str
  | none => "<unable to repr>".toList

/-- The inline value formatting of `_log_result_plain` (lines 166-171):
`repr` guarded by try/except, the same body as `_format_var_value`. -/
def plain_var_value (value : PyValue) : Str :=
  match value.reprResult with
  | some value_str =>
      if value_str.length > 60 then value_str.take 57 ++ "...".toList
      else value_str
  | none => "<unable to repr>".toList

/-- The Variables header and overflow note that `_print_result_panel`
appends to the panel content (lines 107-110). -/
def panel_var_section (user_vars : LocalsMap) : List Str :=
  if user_vars ≠ [] then
    ["\n".toList, "Variables:".toList, "\n".toList] ++
    (if user_vars.length > 10 then
      [("  ... and ".toList ++ natToStr (user_vars.length - 10) ++
        " more variables\n".toList)]
    else [])
  else []

/-- `_print_result_panel` (lines 103-129): the result panel (content parts
with the Variables header and the overflow note appended inside the panel),
followed by the Name/Type/Value table of the first 10 user variables when
user variables exist. -/
def print_result_panel (content_parts : List Str) (status : Str)
    (border_style : Str) (user_vars : LocalsMap) : List OutEvt :=
  let _ := border_style
  let content_parts := content_parts ++ panel_var_section user_vars
  let panelEvt := OutEvt.panel ("Result: ".toList ++ status) content_parts
  if user_vars ≠ [] then
    [panelEvt,
     OutEvt.table ((user_vars.take 10).map
       (fun kv => (kv.1, kv.2.typeName, format_var_value kv.2)))]
  else [panelEvt]

/-- Observation helper (not part of the source): the rows of all table
events among a list of output events. -/
def tableRowsOf (evts : List OutEvt) : List (Str × Str × Str) :=
  evts.foldr (fun e acc => match e with | .table rows => rows ++ acc | _ => acc) []

/-- `_log_result_rich` (lines 66-72). -/
def log_result_rich (result : REPLResult) : List OutEvt :=
  let sb := get_status_style result.success
  let content_parts := build_content_parts result
  let user_vars := get_user_vars result.locals
  print_result_panel content_parts sb.1 sb.2 user_vars

/-- The stdout section of `_log_result_plain` (lines 148-153): the `print`
arguments it contributes, given the raw `result.stdout`. -/
def plain_stdout_lines (stdout_raw : Str) : List Str :=
  if stripPy stdout_raw ≠ [] then
    let stdout := stripPy stdout_raw
    let stdout :=
      if stdout.length > 2000 then stdout.take 2000 ++ "\n... (truncated)".toList
      else stdout
    ["\nOutput:".toList, stdout]
  else []

/-- The stderr section of `_log_result_plain` (lines 155-160). -/
def plain_stderr_lines (stderr_raw : Str) : List Str :=
  if stripPy stderr_raw ≠ [] then
    let stderr := stripPy stderr_raw
    let stderr :=
      if stderr.length > 1000 then stderr.take 1000 ++ "\n... (truncated)".toList
      else stderr
    ["\nErrors:".toList, stderr]
  else []

/-- The variables section of `_log_result_plain` (lines 162-174), given the
raw `result.locals`. -/
def plain_var_lines (locals_dict : LocalsMap) : List Str :=
  let user_vars := user_vars_plain locals_dict
  if user_vars ≠ [] then
    "\nVariables:".toList ::
    ((user_vars.take 10).map (fun kv =>
      "  ".toList ++ kv.1 ++ " (".toList ++ kv.2.typeName ++ "): ".toList ++
        plain_var_value kv.2)) ++
    (if user_vars.length > 10 then
      [("  ... and ".toList ++ natToStr (user_vars.length - 10) ++
        " more variables".toList)]
    else [])
  else []

/-- `_log_result_plain` (lines 141-176): the successive `print` arguments. -/
def log_result_plain (result : REPLResult) : List Str :=
  let status := if result.success then "SUCCESS".toList else "ERROR".toList
  let header :=
    [('\n' :: banner50),
     ("RESULT: ".toList ++ status ++ " (executed in ".toList ++
       format3 result.execution_time ++ "s)".toList),
     banner50]
  header ++ plain_stdout_lines result.stdout ++ plain_stderr_lines result.stderr ++
    plain_var_lines result.locals ++ [banner50]

/-- `log_result` (lines 56-64). -/
def log_result (richAvailable : Bool) (self : RLMLogger) (result : REPLResult) :
    List OutEvt × RLMLogger :=
  if !self.enabled then ([], self)
  else if richAvailable then (log_result_rich result, self)
  else ((log_result_plain result).map OutEvt.printed, self)

/-- `log_llm_query` (lines 178-204). -/
def log_llm_query (richAvailable : Bool) (self : RLMLogger) (prompt : Str) :
    List OutEvt × RLMLogger :=
  if !self.enabled then ([], self)
  else if richAvailable then
    let display_prompt := prompt
    let display_prompt :=
      if display_prompt.length > 500 then display_prompt.take 500 ++ "...".toList
      else display_prompt
    ([.panel "LLM Query".toList [display_prompt]], self)
  else
    let display_prompt := prompt
    let display_prompt :=
      if display_prompt.length > 500 then display_prompt.take 500 ++ "...".toList
      else display_prompt
    ([.printed ('\n' :: banner50), .printed "LLM QUERY".toList, .printed banner50,
      .printed display_prompt, .printed banner50], self)

/-- `log_llm_response` (lines 206-232). -/
def log_llm_response (richAvailable : Bool) (self : RLMLogger) (response : Str) :
    List OutEvt × RLMLogger :=
  if !self.enabled then ([], self)
  else if richAvailable then
    let display_response := response
    let display_response :=
      if display_response.length > 500 then display_response.take 500 ++ "...".toList
      else display_response
    ([.panel "LLM Response".toList [display_response]], self)
  else
    let display_response := response
    let display_response :=
      if display_response.length > 500 then display_response.take 500 ++ "...".toList
      else display_response
    ([.printed ('\n' :: banner50), .printed "LLM RESPONSE".toList, .printed banner50,
      .printed display_response, .printed banner50], self)

/-- The module-global `_logger` cell (line 236), threaded explicitly. -/
abbrev LoggerState := Option RLMLogger

/-- `get_logger` (lines 239-244): lazily create a disabled logger. -/
def get_logger (s : LoggerState) : RLMLogger × LoggerState :=
  match s with
  | none => ((⟨false⟩ : RLMLogger), some (⟨false⟩ : RLMLogger))
  | some l => (l, some l)

/-- The declared default of the `enabled` parameter of `configure_logging`
(line 247: `enabled: bool = True`). -/
def configureDefaultEnabled : Bool := true

/-- `configure_logging` (lines 247-270): unconditionally installs a fresh
logger carrying the given flag, ignoring the previous singleton. -/
def configure_logging (enabled : Bool) (s : LoggerState) : RLMLogger × LoggerState :=
  let _ := s
  ((⟨enabled⟩ : RLMLogger), some (⟨enabled⟩ : RLMLogger))

/-- A call `configure_logging()` with the parameter left to its default. -/
def configure_logging_noarg (s : LoggerState) : RLMLogger × LoggerState :=
  configure_logging configureDefaultEnabled s

end RLM

/-- C3: in both modes, the LLM query renderer and the LLM response renderer
display exactly the first 500 characters of the string followed by `...`
when its length exceeds 500, and the string unchanged otherwise. -/
theorem llm_truncation_law (s : Str) :
    (RLM.log_llm_query true ⟨true⟩ s).1 =
      [.panel "LLM Query".toList
        [if s.length > 500 then s.take 500 ++ "...".toList else s]] ∧
    (RLM.log_llm_query false ⟨true⟩ s).1 =
      [.printed ('\n' :: RLM.banner50), .printed "LLM QUERY".toList,
       .printed RLM.banner50,
       .printed (if s.length > 500 then s.take 500 ++ "...".toList else s),
       .printed RLM.banner50] ∧
    (RLM.log_llm_response true ⟨true⟩ s).1 =
      [.panel "LLM Response".toList
        [if s.length > 500 then s.take 500 ++ "...".toList else s]] ∧
    (RLM.log_llm_response false ⟨true⟩ s).1 =
      [.printed ('\n' :: RLM.banner50), .printed "LLM RESPONSE".toList,
       .printed RLM.banner50,
       .printed (if s.length > 500 then s.take 500 ++ "...".toList else s),
       .printed RLM.banner50] :=
  ⟨rfl, rfl, rfl, rfl⟩

/-- C4: the rich path excludes `context, json, re, os, collections, math`
while the plain path excludes only `context, json, re, os`; on the locals
mapping containing just the key `math` the two rendered variable lists
differ (the rich filter drops it, the plain filter keeps it). -/
theorem exclusion_set_asymmetry :
    RLM.excludedRich =
      ["context".toList, "json".toList, "re".toList, "os".toList,
       "collections".toList, "math".toList] ∧
    RLM.excludedPlain =
      ["context".toList, "json".toList, "re".toList, "os".toList] ∧
    RLM.get_user_vars [("math".toList, ⟨"module".toList, some "<module>".toList⟩)] = [] ∧
    RLM.user_vars_plain [("math".toList, ⟨"module".toList, some "<module>".toList⟩)] =
      [("math".toList, ⟨"module".toList, some "<module>".toList⟩)] ∧
    RLM.get_user_vars [("math".toList, ⟨"module".toList, some "<module>".toList⟩)] ≠
      RLM.user_vars_plain [("math".toList, ⟨"module".toList, some "<module>".toList⟩)] := by
  refine ⟨rfl, rfl, ?_, ?_, ?_⟩ <;> decide

/-- C5: when `repr` raises, both modes substitute the fixed placeholder
`<unable to repr>` for the value; the formatting functions are total, so
the failure never propagates to the caller. -/
theorem repr_failure_placeholder (v : RLM.PyValue) (h : v.reprResult = none) :
    RLM.format_var_value v = "<unable to repr>".toList ∧
    RLM.plain_var_value v = "<unable to repr>".toList := by
  unfold RLM.format_var_value RLM.plain_var_value
  rw [h]
  exact ⟨rfl, rfl⟩

/-- Witness for C5 at a concrete failing value. -/
theorem repr_failure_placeholder_witness :
    RLM.format_var_value ⟨"Foo".toList, none⟩ = "<unable to repr>".toList ∧
    RLM.plain_var_value ⟨"Foo".toList, none⟩ = "<unable to repr>".toList :=
  repr_failure_placeholder ⟨"Foo".toList, none⟩ rfl

/-- C6: `get_logger` called twice with no intervening reconfiguration
returns the same instance and leaves the singleton unchanged; the instance
it lazily creates on first use is disabled; after `configure_logging`
with `enabled = true`, `get_logger` returns an enabled instance. -/
theorem singleton_lazy_init_configure (s : RLM.LoggerState) :
    (RLM.get_logger (RLM.get_logger s).2).1 = (RLM.get_logger s).1 ∧
    (RLM.get_logger (RLM.get_logger s).2).2 = (RLM.get_logger s).2 ∧
    (RLM.get_logger none).1.enabled = false ∧
    (RLM.get_logger (RLM.configure_logging true s).2).1.enabled = true := by
  cases s <;> simp [RLM.get_logger, RLM.configure_logging]

/-- C7: with `enabled = false`, each of the four render operations emits
no output and returns the logger unchanged, for every input and in both
modes. -/
theorem disabled_renderer_noop (ra : Bool) (lg : RLM.RLMLogger)
    (code s : Str) (r : RLM.REPLResult) (h : lg.enabled = false) :
    RLM.log_code_execution ra lg code = ([], lg) ∧
    RLM.log_result ra lg r = ([], lg) ∧
    RLM.log_llm_query ra lg s = ([], lg) ∧
    RLM.log_llm_response ra lg s = ([], lg) := by
  simp [RLM.log_code_execution, RLM.log_result, RLM.log_llm_query,
    RLM.log_llm_response, h]

/-- Witness for C7 at a concrete disabled logger and concrete inputs. -/
theorem disabled_renderer_noop_witness :
    RLM.log_code_execution true ⟨false⟩ "x = 1".toList = ([], ⟨false⟩) ∧
    RLM.log_result true ⟨false⟩ ⟨true, 0, [], [], []⟩ = ([], ⟨false⟩) ∧
    RLM.log_llm_query true ⟨false⟩ "hi".toList = ([], ⟨false⟩) ∧
    RLM.log_llm_response true ⟨false⟩ "hi".toList = ([], ⟨false⟩) :=
  disabled_renderer_noop true ⟨false⟩ "x = 1".toList "hi".toList
    ⟨true, 0, [], [], []⟩ rfl

/-- C8: when `repr` succeeds with string `s`, both modes render `s`
unchanged if it has at most 60 characters and otherwise render the first
57 characters of `s` followed by the three-character ellipsis; either way
the rendered value has at most 60 characters. -/
theorem repr_success_truncation (v : RLM.PyValue) (s : Str)
    (h : v.reprResult = some s) :
    RLM.format_var_value v = (if s.length > 60 then s.take 57 ++ "...".toList else s) ∧
    RLM.plain_var_value v = (if s.length > 60 then s.take 57 ++ "...".toList else s) ∧
    (RLM.format_var_value v).length ≤ 60 ∧
    (RLM.plain_var_value v).length ≤ 60 := by
  have h3 : ("...".toList : Str).length = 3 := rfl
  unfold RLM.format_var_value RLM.plain_var_value
  rw [h]
  dsimp only
  refine ⟨rfl, rfl, ?_, ?_⟩ <;>
  · by_cases hl : s.length > 60
    · rw [if_pos hl]
      simp only [List.length_append, List.length_take, h3]
      omega
    · rw [if_neg hl]
      omega

/-- Witness for C8 at a concrete value whose repr is 64 characters long. -/
theorem repr_success_truncation_witness :
    RLM.format_var_value ⟨"str".toList, some (List.replicate 64 'a')⟩ =
      (if (List.replicate 64 'a').length > 60 then
        (List.replicate 64 'a').take 57 ++ "...".toList
      else List.replicate 64 'a') ∧
    RLM.plain_var_value ⟨"str".toList, some (List.replicate 64 'a')⟩ =
      (if (List.replicate 64 'a').length > 60 then
        (List.replicate 64 'a').take 57 ++ "...".toList
      else List.replicate 64 'a') ∧
    (RLM.format_var_value ⟨"str".toList, some (List.replicate 64 'a')⟩).length ≤ 60 ∧
    (RLM.plain_var_value ⟨"str".toList, some (List.replicate 64 'a')⟩).length ≤ 60 :=
  repr_success_truncation ⟨"str".toList, some (List.replicate 64 'a')⟩
    (List.replicate 64 'a') rfl

/-- C10: `configure_logging` with no argument uses the declared default
`enabled = True`, so it installs an enabled singleton, and a subsequent
`get_logger` returns that enabled instance. -/
theorem configure_default_enables (s : RLM.LoggerState) :
    RLM.configureDefaultEnabled = true ∧
    (RLM.configure_logging_noarg s).1.enabled = true ∧
    (RLM.configure_logging_noarg s).2 = some (RLM.configure_logging_noarg s).1 ∧
    (RLM.get_logger (RLM.configure_logging_noarg s).2).1.enabled = true := by
  simp [RLM.configure_logging_noarg, RLM.configure_logging,
    RLM.configureDefaultEnabled, RLM.get_logger]

/-- C1: in both modes the Output: section equals the first 2000 characters
of the whitespace-trimmed stdout followed by the marker `\n... (truncated)`
when the trimmed stdout is longer than 2000 characters, equals the trimmed
stdout verbatim when its length is at most 2000, and is omitted entirely
when the trimmed stdout is empty; the identical law holds for stderr under
Errors: with threshold 1000. The final conjunct places the plain-mode
sections inside the full plain output. -/
theorem stdout_stderr_truncation_law (r : RLM.REPLResult) :
    RLM.build_content_parts r =
      ("Executed in ".toList ++ RLM.format3 r.execution_time ++ "s".toList) ::
      ((if RLM.stripPy r.stdout = [] then []
        else ["\n".toList, "Output:".toList, "\n".toList,
          if (RLM.stripPy r.stdout).length > 2000 then
            (RLM.stripPy r.stdout).take 2000 ++ "\n... (truncated)".toList
          else RLM.stripPy r.stdout]) ++
       (if RLM.stripPy r.stderr = [] then []
        else ["\n".toList, "Errors:".toList, "\n".toList,
          if (RLM.stripPy r.stderr).length > 1000 then
            (RLM.stripPy r.stderr).take 1000 ++ "\n... (truncated)".toList
          else RLM.stripPy r.stderr])) ∧
    RLM.plain_stdout_lines r.stdout =
      (if RLM.stripPy r.stdout = [] then []
       else ["\nOutput:".toList,
         if (RLM.stripPy r.stdout).length > 2000 then
           (RLM.stripPy r.stdout).take 2000 ++ "\n... (truncated)".toList
         else RLM.stripPy r.stdout]) ∧
    RLM.plain_stderr_lines r.stderr =
      (if RLM.stripPy r.stderr = [] then []
       else ["\nErrors:".toList,
         if (RLM.stripPy r.stderr).length > 1000 then
           (RLM.stripPy r.stderr).take 1000 ++ "\n... (truncated)".toList
         else RLM.stripPy r.stderr]) ∧
    RLM.log_result_plain r =
      [('\n' :: RLM.banner50),
       ("RESULT: ".toList ++ (if r.success then "SUCCESS".toList else "ERROR".toList) ++
         " (executed in ".toList ++ RLM.format3 r.execution_time ++ "s)".toList),
       RLM.banner50] ++
      RLM.plain_stdout_lines r.stdout ++ RLM.plain_stderr_lines r.stderr ++
      RLM.plain_var_lines r.locals ++ [RLM.banner50] := by
  refine ⟨?_, ?_, ?_, rfl⟩
  · unfold RLM.build_content_parts
    by_cases h1 : RLM.stripPy r.stdout = [] <;>
      by_cases h2 : RLM.stripPy r.stderr = [] <;> simp [h1, h2]
  · unfold RLM.plain_stdout_lines
    by_cases h1 : RLM.stripPy r.stdout = [] <;> simp [h1]
  · unfold RLM.plain_stderr_lines
    by_cases h2 : RLM.stripPy r.stderr = [] <;> simp [h2]

/-- C2: in both modes every rendered variable comes from the locals mapping,
does not start with an underscore and is not in the exclusion set of the mode;
at most the first 10 filtered entries are rendered, in insertion order
(sublist of the locals mapping); and the summary line
`... and N more variables` with `N = count - 10` is appended exactly when
the filtered count exceeds 10. -/
theorem var_filter_cap_summary (L : RLM.LocalsMap) (r : RLM.REPLResult) :
    ((RLM.user_vars_plain L).take 10).all
      (fun kv => !RLM.startsWithUnd kv.1 && !RLM.excludedPlain.contains kv.1) = true ∧
    ((RLM.user_vars_plain L).take 10).length ≤ 10 ∧
    List.Sublist ((RLM.user_vars_plain L).take 10) L ∧
    ((RLM.get_user_vars L).take 10).all
      (fun kv => !RLM.startsWithUnd kv.1 && !RLM.excludedRich.contains kv.1) = true ∧
    ((RLM.get_user_vars L).take 10).length ≤ 10 ∧
    List.Sublist ((RLM.get_user_vars L).take 10) L ∧
    RLM.plain_var_lines L =
      (if RLM.user_vars_plain L = [] then []
       else
        "\nVariables:".toList ::
        (((RLM.user_vars_plain L).take 10).map (fun kv =>
          "  ".toList ++ kv.1 ++ " (".toList ++ kv.2.typeName ++ "): ".toList ++
            RLM.plain_var_value kv.2)) ++
        (if (RLM.user_vars_plain L).length > 10 then
          [("  ... and ".toList ++ RLM.natToStr ((RLM.user_vars_plain L).length - 10) ++
            " more variables".toList)]
        else [])) ∧
    RLM.panel_var_section (RLM.get_user_vars L) =
      (if RLM.get_user_vars L = [] then []
       else
        ["\n".toList, "Variables:".toList, "\n".toList] ++
        (if (RLM.get_user_vars L).length > 10 then
          [("  ... and ".toList ++ RLM.natToStr ((RLM.get_user_vars L).length - 10) ++
            " more variables\n".toList)]
        else [])) ∧
    RLM.tableRowsOf (RLM.log_result_rich r) =
      ((RLM.get_user_vars r.locals).take 10).map
        (fun kv => (kv.1, kv.2.typeName, RLM.format_var_value kv.2)) := by
  refine ⟨?_, ?_, ?_, ?_, ?_, ?_, ?_, ?_, ?_⟩
  · simp only [List.all_eq_true]
    intro kv hkv
    exact (List.mem_filter.mp (List.mem_of_mem_take hkv)).2
  · simp [List.length_take]
  · exact (List.take_sublist _ _).trans (List.filter_sublist _)
  · simp only [List.all_eq_true]
    intro kv hkv
    exact (List.mem_filter.mp (List.mem_of_mem_take hkv)).2
  · simp [List.length_take]
  · exact (List.take_sublist _ _).trans (List.filter_sublist _)
  · unfold RLM.plain_var_lines
    by_cases h : RLM.user_vars_plain L = [] <;> simp [h]
  · unfold RLM.panel_var_section
    by_cases h : RLM.get_user_vars L = [] <;> simp [h]
  · unfold RLM.log_result_rich RLM.print_result_panel RLM.tableRowsOf
    by_cases h : RLM.get_user_vars r.locals = [] <;> simp [h]

/-- The ExecutionResult of the "hello" scenario in the spec. -/
def helloResult : RLM.REPLResult :=
  ⟨true, (21 : ℚ)/10000, "hello\n".toList, "".toList,
   [("x".toList, ⟨"int".toList, some "5".toList⟩)]⟩

/-- C9: on `ExecutionResult(success=True, execution_time=0.0021,
stdout="hello\n", stderr="", locals=dict(x=5))` the plain-mode output
contains the header `RESULT: SUCCESS (executed in 0.002s)`, an Output:
section containing `hello`, no Errors: section, and the Variables: entry
`x (int): 5` (the renderer indents each entry with two spaces). -/
theorem hello_scenario :
    "RESULT: SUCCESS (executed in 0.002s)".toList ∈ RLM.log_result_plain helloResult ∧
    "\nOutput:".toList ∈ RLM.log_result_plain helloResult ∧
    "hello".toList ∈ RLM.log_result_plain helloResult ∧
    "\nErrors:".toList ∉ RLM.log_result_plain helloResult ∧
    "\nVariables:".toList ∈ RLM.log_result_plain helloResult ∧
    "  x (int): 5".toList ∈ RLM.log_result_plain helloResult := by
  have hf : RLM.format3 helloResult.execution_time = "0.002".toList := by
    have h0 : (⌊(21 : ℚ)/10000 * 1000 + 1/2⌋) = 2 := by norm_num
    have h : (⌊(21 : ℚ)/10000 * 1000 + 1/2⌋).toNat = 2 := by rw [h0]; rfl
    show RLM.format3 ((21 : ℚ)/10000) = _
    unfold RLM.format3
    rw [h]
    decide
  have hout : RLM.log_result_plain helloResult =
      [('\n' :: RLM.banner50),
       "RESULT: SUCCESS (executed in 0.002s)".toList,
       RLM.banner50,
       "\nOutput:".toList, "hello".toList,
       "\nVariables:".toList, "  x (int): 5".toList,
       RLM.banner50] := by
    simp only [RLM.log_result_plain]
    rw [hf]
    decide
  rw [hout]
  decide

